import Mathlib

/-!
Verification of the Video-Streaming-App-Backend repository.

The JavaScript sources embedded here:
* `src/src/utils/asyncHandler.js` — the `asyncHandler` wrapper and the
  video controllers (`getVideos`, `publishVideo`, `getVideo`,
  `changeVideoFile`, `changeThumbnail`, `changeTitle`,
  `changeDescription`, `togglePublishStatus`, `deleteVideo`).
* `src/src/app.js` — the mongoose `User` schema with its pre-save
  password-hashing hook and the `isPasswordCorrect` method.

The embedding is a shallow one: the document database is a record of
lists (videos, views), object storage is a list of public ids, handler
bodies become functions returning `Except ApiError …`, and external
collaborators (cloudinary, bcrypt) are modelled by explicit oracles or
deterministic contract models, as documented at each definition.
-/

namespace VideoApp

/-- Structured error carrying an HTTP status code and a message,
mirroring `ApiError` (`src/src/utils/apiError.js`). -/
structure ApiError where
  code : Nat
  message : String
  deriving Repr, DecidableEq

/-- Success envelope, mirroring `ApiResponse`: status code, data, message. -/
structure ApiResponse (α : Type) where
  statusCode : Nat
  data : α
  message : String
  deriving Repr, DecidableEq

/-- Reference to a stored media asset, mirroring the `imageSchema`
sub-document of `src/src/app.js`: `{ url, publicId }`. -/
structure ImageRef where
  url : String
  publicId : String
  deriving Repr, DecidableEq

/-- A video document, mirroring the `Video` model fields used by the
handlers in `asyncHandler.js`. Document ids are modelled as `Nat`. -/
structure Video where
  id : Nat
  title : String
  description : String
  duration : Nat
  videoFile : ImageRef
  thumbnail : ImageRef
  publisher : Nat
  isPublished : Bool
  deriving Repr, DecidableEq

/-- A view document, mirroring the `View` model: the viewed video, its
owner (the video publisher at view time), the viewer, and the creation
timestamp added by mongoose `timestamps`. -/
structure View where
  video : Nat
  owner : Nat
  viewer : Nat
  createdAt : Nat
  deriving Repr, DecidableEq

/-- The persistent state the video handlers touch: the `videos` and
`views` collections of the document database, and the set (list) of
public ids currently stored in the object-storage service. -/
structure DB where
  videos : List Video
  views : List View
  storage : List String
  deriving Repr, DecidableEq

/-! ### JavaScript numeric parsing (`parseInt(x) || default` in `getVideos`)

`getVideos` builds its pagination options as
`page: parseInt(page) || 1, limit: parseInt(limit) || 10`
(`asyncHandler.js` lines 35-42). We model JS `parseInt` exactly on the
inputs reachable there: the parameter is either absent
(`parseInt(undefined)` is `NaN`) or a string; `parseInt` skips leading
whitespace, reads an optional sign, a `0x`/`0X` hexadecimal prefix or
decimal digits, and yields `NaN` when no digit is read. `NaN` is
`none`. -/

/-- Value of a list of decimal digit characters, `none` when empty
(JS `parseInt` returns `NaN` when it reads no digit). -/
def decDigitsVal (cs : List Char) : Option Nat :=
  let ds := cs.takeWhile (·.isDigit)
  if ds.isEmpty then none
  else some (ds.foldl (fun acc c => 10 * acc + (c.toNat - 48)) 0)

/-- Value of a list of hexadecimal digit characters, `none` when empty. -/
def hexDigitsVal (cs : List Char) : Option Nat :=
  let ds := cs.takeWhile (fun c => c.isDigit ||
    ('a' ≤ c && c ≤ 'f') || ('A' ≤ c && c ≤ 'F'))
  if ds.isEmpty then none
  else some (ds.foldl (fun acc c =>
    16 * acc + (if c.isDigit then c.toNat - 48
      else if 'a' ≤ c && c ≤ 'f' then c.toNat - 87
      else c.toNat - 55)) 0)

/-- Digits of an unsigned JS `parseInt` body: a `0x`/`0X` prefix selects
hexadecimal, otherwise decimal. -/
def jsParseIntBody : List Char → Option Nat
  | '0' :: 'x' :: rest => hexDigitsVal rest
  | '0' :: 'X' :: rest => hexDigitsVal rest
  | cs => decDigitsVal cs

/-- JS `parseInt` on a string: skip leading whitespace, optional sign,
then digits; `none` models `NaN`. -/
def jsParseIntStr (s : String) : Option Int :=
  match s.data.dropWhile (·.isWhitespace) with
  | '-' :: rest => (jsParseIntBody rest).map (fun n => -(n : Int))
  | '+' :: rest => (jsParseIntBody rest).map (fun n => (n : Int))
  | rest => (jsParseIntBody rest).map (fun n => (n : Int))

/-- JS `parseInt` applied to an optional query parameter: an omitted
parameter is `undefined`, and `parseInt(undefined)` is `NaN` (`none`). -/
def jsParseInt : Option String → Option Int
  | none => none
  | some s => jsParseIntStr s

/-- JS `x || d` for a number `x`: `NaN` and `0` (and `-0`) are falsy, so
they select the default `d`; every other number is kept. -/
def jsOrNum (v : Option Int) (d : Int) : Int :=
  match v with
  | none => d
  | some n => if n = 0 then d else n

/-- The `page` pagination option computed by `getVideos`:
`parseInt(page) || 1`. -/
def optionsPage (page : Option String) : Int :=
  jsOrNum (jsParseInt page) 1

/-- The `limit` pagination option computed by `getVideos`:
`parseInt(limit) || 10`. -/
def optionsLimit (limit : Option String) : Int :=
  jsOrNum (jsParseInt limit) 10

/-! ### Database and object-storage primitives

The handlers use the mongoose operations `find?`-style `findById`,
`findByIdAndDelete`, `findOneAndDelete`, `create`, `deleteMany`, and the
cloudinary helpers `uploadOnCloudinary` / `deleteFromCloudinary`. We
model them over `DB` and an explicit cloudinary oracle. -/

/-- Result of `uploadOnCloudinary` as consumed by the handlers:
`{ url, public_id }` (plus `duration` for videos, carried separately). -/
structure UploadResult where
  url : String
  public_id : String
  deriving Repr, DecidableEq

/-- Oracle for the object-storage service: whether deleting a given
public id succeeds (`deleteFromCloudinary` returning a truthy result vs
`null`), and what uploading a given local path returns (`none` models
`uploadOnCloudinary` returning `null`). -/
structure Cloud where
  deleteOk : String → Bool
  upload : String → Option UploadResult

/-- `deleteFromCloudinary(publicId)`: on success the asset leaves
storage and a truthy result is returned; on failure (`none`) storage is
unchanged. -/
def deleteFromCloudinary (cloud : Cloud) (publicId : String) (st : DB) :
    Option Unit × DB :=
  if cloud.deleteOk publicId then
    (some (), { st with storage := st.storage.filter (· ≠ publicId) })
  else
    (none, st)

/-- `Video.findById(videoId)`: first video document with that id. -/
def videoFindById (videoId : Nat) (st : DB) : Option Video :=
  st.videos.find? (fun v => v.id == videoId)

/-- `Video.findByIdAndDelete(videoId)`: removes the matched document
(ids are unique in the database, so at most one) and returns it. -/
def videoFindByIdAndDelete (videoId : Nat) (st : DB) : Option Video × DB :=
  (st.videos.find? (fun v => v.id == videoId),
   { st with videos := st.videos.eraseP (fun v => v.id == videoId) })

/-- Persisting a modified video document (`video.save(...)` /
`findByIdAndUpdate` with `{ new: true }`): the document with that id is
replaced by the updated one. -/
def videoSave (videoId : Nat) (updated : Video) (st : DB) : DB :=
  { st with videos := st.videos.map (fun v => if v.id == videoId then updated else v) }

/-- `Video.findByIdAndUpdate(videoId, { $set: … }, { new: true })`:
applies the update to the matched document and returns the new
document, or returns `null` (`none`) and leaves the database unchanged
when no document has that id. -/
def videoFindByIdAndUpdate (videoId : Nat) (f : Video → Video) (st : DB) :
    Option Video × DB :=
  match st.videos.find? (fun v => v.id == videoId) with
  | none => (none, st)
  | some v => (some (f v), videoSave videoId (f v) st)

/-- Predicate on a view row matching `getVideo`'s
`{ video, owner, viewer }` filter. -/
def viewTripleMatch (videoId ownerId viewerId : Nat) (r : View) : Bool :=
  r.video == videoId && r.owner == ownerId && r.viewer == viewerId

/-- `View.findOneAndDelete({ video, owner, viewer })`: removes the first
matching view row. -/
def viewFindOneAndDelete (videoId ownerId viewerId : Nat) (st : DB) : DB :=
  { st with views := st.views.eraseP (viewTripleMatch videoId ownerId viewerId) }

/-- `View.create({ video, owner, viewer })`: inserts a fresh view row,
timestamped by mongoose with the current time `t`. -/
def viewCreate (videoId ownerId viewerId t : Nat) (st : DB) : DB :=
  { st with views := st.views ++ [⟨videoId, ownerId, viewerId, t⟩] }

/-- `View.deleteMany({ video: videoId })`: removes every view row
referencing that video id. -/
def viewDeleteMany (videoId : Nat) (st : DB) : DB :=
  { st with views := st.views.filter (fun r => !(r.video == videoId)) }

/-! ### `getVideos` result check (`asyncHandler.js` lines 117-134)

`aggregatePaginate` resolves either to no container at all (modelled
`none`) or to a page container whose `videoList` label is always an
array. The code then runs
`if (!videos || !videos.videoList) throw new ApiError(500, …)`. -/

/-- The page container produced by `aggregatePaginate` with the custom
labels `videoList` / `totalVideos`. -/
structure PageResult where
  videoList : List Video
  totalVideos : Nat
  deriving Repr, DecidableEq

/-- JS truthiness of an array value: arrays, including the empty array,
are always truthy, so `!videos.videoList` is always `false` when the
container exists. -/
def jsFalsyArray (l : List Video) : Bool :=
  match l with
  | _ => false

/-- Tail of `getVideos` after the aggregation resolves: throw 500 when
`!videos || !videos.videoList`, otherwise wrap the container in the
success envelope. -/
def getVideosResponse (videos : Option PageResult) :
    Except ApiError (ApiResponse PageResult) :=
  match videos with
  | none => .error ⟨500, "Something went wrong while fetching all videos"⟩
  | some v =>
    if jsFalsyArray v.videoList then
      .error ⟨500, "Something went wrong while fetching all videos"⟩
    else
      .ok ⟨200, v, "Videos fetched successfully"⟩

/-! ### `getVideo` (`asyncHandler.js` lines 195-365)

The aggregation matches the video by id and joins publisher details; the
projected `publisherId` is the video's `publisher` field. After the
fetch the handler deletes any existing view row for
`(video, owner, viewer)` and inserts a fresh one. The request supplies
`videoId` (absent or empty models the falsy check) and the
authenticated viewer; `t` is the clock value mongoose stamps on the new
row. -/

/-- The `getVideo` handler. Returns the updated database together with
the fetched video on success. -/
def getVideo (videoId : Option Nat) (viewerId t : Nat) (st : DB) :
    Except ApiError (DB × Video) :=
  match videoId with
  | none => .error ⟨400, "Video ID is required"⟩
  | some vid =>
    match videoFindById vid st with
    | none => .error ⟨500, "Something went wrong while fetching the video"⟩
    | some video =>
      let st1 := viewFindOneAndDelete vid video.publisher viewerId st
      let st2 := viewCreate vid video.publisher viewerId t st1
      .ok (st2, video)

/-! ### `togglePublishStatus` (`asyncHandler.js` lines 553-586) -/

/-- The `togglePublishStatus` handler: fetch the video, negate its
`isPublished` flag, save. Returns the updated database and document. -/
def togglePublishStatus (videoId : Option Nat) (st : DB) :
    Except ApiError (DB × Video) :=
  match videoId with
  | none => .error ⟨400, "Video ID is required"⟩
  | some vid =>
    match videoFindById vid st with
    | none => .error ⟨500, "Something went wrong while fetching the video"⟩
    | some video =>
      let updated := { video with isPublished := !video.isPublished }
      .ok (videoSave vid updated st, updated)

/-! ### `changeVideoFile` (`asyncHandler.js` lines 367-424)

Every step is checked: missing id, missing file path, fetch miss,
storage-delete failure, upload failure, and update failure each raise a
distinct error. -/

/-- The `changeVideoFile` handler. `filePath` is `req.file?.path`. -/
def changeVideoFile (cloud : Cloud) (videoId : Option Nat)
    (filePath : Option String) (st : DB) : Except ApiError (DB × Video) :=
  match videoId with
  | none => .error ⟨400, "Video ID is required"⟩
  | some vid =>
    match filePath with
    | none => .error ⟨400, "Video file is missing"⟩
    | some path =>
      match videoFindById vid st with
      | none => .error ⟨500, "Something went wrong while fetching the old video"⟩
      | some oldVideo =>
        match deleteFromCloudinary cloud oldVideo.videoFile.publicId st with
        | (none, _) =>
          .error ⟨500, "Something went wrong while deleting the old video file from cloudinary"⟩
        | (some _, st1) =>
          match cloud.upload path with
          | none =>
            .error ⟨500, "Something went wrong while uploading the new video file in cloudinary"⟩
          | some newVideoFile =>
            let st2 := { st1 with storage := st1.storage ++ [newVideoFile.public_id] }
            match videoFindByIdAndUpdate vid
                (fun v => { v with
                  videoFile := ⟨newVideoFile.url, newVideoFile.public_id⟩ }) st2 with
            | (none, _) =>
              .error ⟨500, "Something went wrong while updating the video file"⟩
            | (some updatedVideo, st3) => .ok (st3, updatedVideo)

/-- The `changeThumbnail` handler (`asyncHandler.js` lines 426-482),
structurally identical to `changeVideoFile` with the thumbnail asset
and its own error messages. -/
def changeThumbnail (cloud : Cloud) (videoId : Option Nat)
    (thumbnailPath : Option String) (st : DB) : Except ApiError (DB × Video) :=
  match videoId with
  | none => .error ⟨400, "Video ID is required"⟩
  | some vid =>
    match thumbnailPath with
    | none => .error ⟨400, "Thumbnail is missing"⟩
    | some path =>
      match videoFindById vid st with
      | none => .error ⟨500, "Something went wrong while fetching the old video"⟩
      | some oldVideo =>
        match deleteFromCloudinary cloud oldVideo.thumbnail.publicId st with
        | (none, _) =>
          .error ⟨500, "Something went wrong while deleting the old thumbnail from cloudinary"⟩
        | (some _, st1) =>
          match cloud.upload path with
          | none =>
            .error ⟨500, "Something went wrong while uploading the new thumbnail in cloudinary"⟩
          | some newThumbnail =>
            let st2 := { st1 with storage := st1.storage ++ [newThumbnail.public_id] }
            match videoFindByIdAndUpdate vid
                (fun v => { v with
                  thumbnail := ⟨newThumbnail.url, newThumbnail.public_id⟩ }) st2 with
            | (none, _) =>
              .error ⟨500, "Something went wrong while updating the thumbnail"⟩
            | (some updatedVideo, st3) => .ok (st3, updatedVideo)

/-- The `changeTitle` handler (`asyncHandler.js` lines 484-515): its
only database step is the `findByIdAndUpdate`, whose `null` result (no
matching document) raises the update error. -/
def changeTitle (videoId : Option Nat) (title : Option String) (st : DB) :
    Except ApiError (DB × Video) :=
  match videoId with
  | none => .error ⟨400, "Video ID is required"⟩
  | some vid =>
    match title with
    | none => .error ⟨400, "Title is missing"⟩
    | some t =>
      match videoFindByIdAndUpdate vid (fun v => { v with title := t }) st with
      | (none, _) =>
        .error ⟨500, "Something went wrong while updating the video title"⟩
      | (some updatedVideo, st1) => .ok (st1, updatedVideo)

/-- The `changeDescription` handler (`asyncHandler.js` lines 517-551),
mirroring `changeTitle` for the description field. -/
def changeDescription (videoId : Option Nat) (description : Option String)
    (st : DB) : Except ApiError (DB × Video) :=
  match videoId with
  | none => .error ⟨400, "Video ID is required"⟩
  | some vid =>
    match description with
    | none => .error ⟨400, "description is missing"⟩
    | some d =>
      match videoFindByIdAndUpdate vid (fun v => { v with description := d }) st with
      | (none, _) =>
        .error ⟨500, "Something went wrong while updating the video description"⟩
      | (some updatedVideo, st1) => .ok (st1, updatedVideo)

/-! ### `deleteVideo` (`asyncHandler.js` lines 588-625)

The handler fetches the video, calls `deleteFromCloudinary` on both
media assets WITHOUT checking either result (lines 601-602), deletes the
video row, and then deletes all of its view rows. The `deleteMany`
result object is always truthy, so the final check never fires on a
resolved call. -/

/-- The `deleteVideo` handler. -/
def deleteVideo (cloud : Cloud) (videoId : Option Nat) (st : DB) :
    Except ApiError (DB × ApiResponse Unit) :=
  match videoId with
  | none => .error ⟨400, "Video ID is required"⟩
  | some vid =>
    match videoFindById vid st with
    | none => .error ⟨500, "Something went wrong while fetching the video"⟩
    | some oldVideo =>
      let st1 := (deleteFromCloudinary cloud oldVideo.videoFile.publicId st).2
      let st2 := (deleteFromCloudinary cloud oldVideo.thumbnail.publicId st1).2
      match videoFindByIdAndDelete vid st2 with
      | (none, _) => .error ⟨500, "Something went wrong while deleting the video"⟩
      | (some deletedVideo, st3) =>
        let st4 := viewDeleteMany deletedVideo.id st3
        .ok (st4, ⟨200, (), "Video deleted successfully"⟩)

/-! ### The `asyncHandler` wrapper (`asyncHandler.js` lines 16-22)

`asyncHandler(requestHandler)` returns
`(req, res, next) => Promise.resolve(requestHandler(req, res, next)).catch(error => next(error))`.
A handler invocation is modelled by its promise outcome; the wrapper's
own observable actions are either nothing (resolved promise) or a single
call to `next` with the rejection error. The wrapper owns no `res` call
of its own, unlike the commented-out variant above it in the source. -/

/-- Outcome of the promise returned by a wrapped request handler. -/
inductive PromiseOutcome (α : Type) where
  | resolved : α → PromiseOutcome α
  | rejected : ApiError → PromiseOutcome α
  deriving Repr, DecidableEq

/-- An observable action the wrapper itself can take: write a response
through `res`, or forward an error to `next`. -/
inductive WrapperAction where
  | writeResponse : Nat → String → WrapperAction
  | callNext : ApiError → WrapperAction
  deriving Repr, DecidableEq

/-- The actions `asyncHandler`'s returned middleware performs itself,
given the wrapped handler and a request: `.catch(error => next(error))`
fires exactly on rejection; on resolution the wrapper adds nothing. -/
def asyncHandlerActions {Req α : Type} (requestHandler : Req → PromiseOutcome α)
    (req : Req) : List WrapperAction :=
  match requestHandler req with
  | .resolved _ => []
  | .rejected error => [.callNext error]

/-! ### User model (`src/src/app.js` lines 89-98)

`userSchema.pre("save")` rehashes the password with
`bcrypt.hash(this.password, 10)` exactly when `this.isModified("password")`;
`isPasswordCorrect` delegates to `bcrypt.compare(password, this.password)`.
`bcrypt` is an external library; we model its contract deterministically:
a hash is the plaintext behind a fixed format prefix, and `compare`
checks the candidate against the hash. This preserves the two contract
facts the code relies on: a hash never equals its plaintext, and
`compare` accepts exactly the original plaintext. -/

/-- Deterministic model of `bcrypt.hash(password, 10)`. -/
def bcryptHash (password : String) : String :=
  "$2b$10$" ++ password

/-- Model of `bcrypt.compare(password, hash)`. -/
def bcryptCompare (password hash : String) : Bool :=
  hash == bcryptHash password

/-- A `User` document restricted to the fields the verified behaviors
touch, plus mongoose's modified-paths bookkeeping for `password`
(`isModified("password")`). -/
structure UserDoc where
  username : String
  email : String
  password : String
  passwordModified : Bool
  deriving Repr, DecidableEq

/-- The `pre("save")` hook: rehash the password exactly when the
password path is modified; saving clears the modified flag. -/
def userPreSave (u : UserDoc) : UserDoc :=
  if u.passwordModified then
    { u with password := bcryptHash u.password, passwordModified := false }
  else
    { u with passwordModified := false }

/-- `userSchema.methods.isPasswordCorrect`. -/
def isPasswordCorrect (password : String) (u : UserDoc) : Bool :=
  bcryptCompare password u.password

/-- A freshly registered user after its first save: a new document has
every set path modified, so the hook hashes the plaintext. -/
def registeredUser (username email password : String) : UserDoc :=
  userPreSave ⟨username, email, password, true⟩

/-! ### Sample concrete inputs used by witnesses and counterexamples -/

/-- A concrete stored video. -/
def sampleVideo : Video :=
  ⟨1, "t", "d", 5, ⟨"urlV", "pidV"⟩, ⟨"urlT", "pidT"⟩, 9, true⟩

/-- A concrete database holding `sampleVideo`, one view row for it, and
both of its media assets in object storage. -/
def sampleDB : DB :=
  ⟨[sampleVideo], [⟨1, 9, 3, 100⟩], ["pidV", "pidT"]⟩

/-- A cloudinary oracle on which every storage operation fails. -/
def cloudAllFail : Cloud :=
  ⟨fun _ => false, fun _ => none⟩

/-- A cloudinary oracle on which every storage operation succeeds. -/
def cloudAllOk : Cloud :=
  ⟨fun _ => true, fun _ => some ⟨"newUrl", "newPid"⟩⟩

/-! ## Helper lemmas -/

/-- A bcrypt hash is never the hashed plaintext (it is strictly
longer). -/
theorem bcryptHash_ne_self (s : String) : bcryptHash s ≠ s := by
  intro h
  have hlen := congrArg String.length h
  rw [bcryptHash, String.length_append] at hlen
  have h7 : ("$2b$10$" : String).length = 7 := rfl
  omega

/-- The bcrypt model is injective: equal hashes come from equal
plaintexts. -/
theorem bcryptHash_inj {a b : String} (h : bcryptHash a = bcryptHash b) :
    a = b := by
  have hd := congrArg String.data h
  rw [bcryptHash, bcryptHash, String.data_append, String.data_append] at hd
  exact String.ext (List.append_cancel_left hd)

/-- Erasing the first match from a list that holds at most one match
leaves a list with no match. -/
theorem filter_eraseP_eq_nil {α : Type} (p : α → Bool) (l : List α)
    (h : (l.filter p).length ≤ 1) : (l.eraseP p).filter p = [] := by
  induction l with
  | nil => rfl
  | cons a l ih =>
    by_cases ha : p a
    · rw [List.eraseP_cons_of_pos ha]
      rw [List.filter_cons_of_pos ha] at h
      simp only [List.length_cons] at h
      exact List.length_eq_zero.mp (by omega)
    · rw [List.eraseP_cons_of_neg ha, List.filter_cons_of_neg ha]
      rw [List.filter_cons_of_neg ha] at h
      exact ih h

/-- `find?` by id on a saved collection returns the updated document
when the original collection contained a document with that id. -/
theorem find?_videoSave_map (vid : Nat) (updated : Video) (l : List Video)
    (hu : updated.id = vid) (w : Video)
    (h : l.find? (fun v => v.id == vid) = some w) :
    (l.map (fun v => if v.id == vid then updated else v)).find?
      (fun v => v.id == vid) = some updated := by
  induction l with
  | nil => simp at h
  | cons a l ih =>
    by_cases ha : (a.id == vid) = true
    · rw [List.map_cons, if_pos ha]
      exact List.find?_cons_of_pos _ (by simp [hu])
    · rw [List.find?_cons_of_neg (p := fun v : Video => v.id == vid) _ ha] at h
      rw [List.map_cons, if_neg ha, List.find?_cons_of_neg (p := fun v : Video => v.id == vid) _ ha]
      exact ih h

/-- On rows whose (video, viewer) pair rows all carry owner `o`, the
pair filter agrees with the `getVideo` triple filter. -/
theorem filter_pair_eq_filter_triple (vid o viewer : Nat) (l : List View)
    (hpub : ∀ r ∈ l, (r.video == vid && r.viewer == viewer) = true → r.owner = o) :
    l.filter (fun r => r.video == vid && r.viewer == viewer) =
    l.filter (viewTripleMatch vid o viewer) := by
  apply List.filter_congr
  intro r hr
  by_cases hv : (r.video == vid) = true
  · by_cases hw : (r.viewer == viewer) = true
    · have ho : r.owner = o := hpub r hr (by rw [hv, hw]; rfl)
      simp [viewTripleMatch, hv, hw, ho]
    · rw [Bool.not_eq_true] at hw
      simp [viewTripleMatch, hv, hw]
  · rw [Bool.not_eq_true] at hv
    simp [viewTripleMatch, hv]

/-- The `getVideo` view step — erase the first (video, owner, viewer)
match, append the fresh row — leaves exactly the fresh row as the
(video, viewer) pair rows, provided all pair rows carry the video's
owner and there is at most one of them. -/
theorem viewStep_filter_pair (vid o viewer t : Nat) (l : List View)
    (hpub : ∀ r ∈ l, (r.video == vid && r.viewer == viewer) = true → r.owner = o)
    (hcount : (l.filter (fun r => r.video == vid && r.viewer == viewer)).length ≤ 1) :
    ((l.eraseP (viewTripleMatch vid o viewer) ++ [(⟨vid, o, viewer, t⟩ : View)]).filter
      (fun r => r.video == vid && r.viewer == viewer)) = [(⟨vid, o, viewer, t⟩ : View)] := by
  rw [List.filter_append]
  have herase : (l.eraseP (viewTripleMatch vid o viewer)).filter
      (fun r => r.video == vid && r.viewer == viewer) = [] := by
    rw [filter_pair_eq_filter_triple vid o viewer _
      (fun r hr hp => hpub r (List.mem_of_mem_eraseP hr) hp)]
    apply filter_eraseP_eq_nil
    rw [← filter_pair_eq_filter_triple vid o viewer l hpub]
    exact hcount
  rw [herase]
  simp

/-! ## Claim theorems -/

/-- C4: in `getVideos`, when the `page` or `limit` query parameter is
omitted or non-numeric (JS `parseInt` yields `NaN`), the page number
defaults to 1 and the page size defaults to 10. -/
theorem getVideos_pagination_defaults (page limit : Option String)
    (hp : jsParseInt page = none) (hl : jsParseInt limit = none) :
    optionsPage page = 1 ∧ optionsLimit limit = 10 := by
  constructor
  · simp [optionsPage, jsOrNum, hp]
  · simp [optionsLimit, jsOrNum, hl]

/-- Witness for C4: an omitted `page` and the non-numeric `limit`
value `"abc"` produce the defaults. -/
theorem getVideos_pagination_defaults_witness :
    optionsPage none = 1 ∧ optionsLimit (some "abc") = 10 :=
  getVideos_pagination_defaults none (some "abc") rfl rfl

/-- C10: in `getVideos`, a `page` or `limit` parameter whose parsed
numeric value is 0 is also replaced by the defaults, because the
`parseInt(x) || d` fallback fires on every falsy number; in particular
`limit=0` yields page size 10, not an empty page. -/
theorem getVideos_zero_params_use_defaults (page limit : Option String)
    (hp : jsParseInt page = some 0) (hl : jsParseInt limit = some 0) :
    optionsPage page = 1 ∧ optionsLimit limit = 10 := by
  constructor
  · simp [optionsPage, jsOrNum, hp]
  · simp [optionsLimit, jsOrNum, hl]

/-- Witness for C10: the literal query strings `page=0`, `limit=0`. -/
theorem getVideos_zero_params_use_defaults_witness :
    optionsPage (some "0") = 1 ∧ optionsLimit (some "0") = 10 :=
  getVideos_zero_params_use_defaults (some "0") (some "0") rfl rfl

/-- C6: `getVideos` raises a 500 error if and only if the paginated
aggregation yields no result container at all; any existing container,
including one whose `videoList` is empty, is returned as a success
envelope (a valid empty page). -/
theorem getVideos_error_iff_no_container :
    (∀ videos : Option PageResult,
      (∃ e, getVideosResponse videos = .error e) ↔ videos = none) ∧
    (∀ r : PageResult,
      getVideosResponse (some r) = .ok ⟨200, r, "Videos fetched successfully"⟩) ∧
    (∀ n : Nat, getVideosResponse (some ⟨[], n⟩) =
      .ok ⟨200, ⟨[], n⟩, "Videos fetched successfully"⟩) := by
  refine ⟨fun videos => ?_, fun r => rfl, fun n => rfl⟩
  cases videos with
  | none => exact ⟨fun _ => rfl, fun _ => ⟨_, rfl⟩⟩
  | some r =>
    constructor
    · rintro ⟨e, he⟩
      simp [getVideosResponse, jsFalsyArray] at he
    · intro h
      cases h

/-- C9: for every wrapped request handler and every request on which the
handler's promise rejects, the `asyncHandler` wrapper performs exactly
one action — forwarding the error to `next` — and never writes a
response itself. -/
theorem asyncHandler_forwards_rejections {Req α : Type}
    (requestHandler : Req → PromiseOutcome α) (req : Req) (e : ApiError)
    (hrej : requestHandler req = .rejected e) :
    asyncHandlerActions requestHandler req = [WrapperAction.callNext e] ∧
    ∀ code msg,
      WrapperAction.writeResponse code msg ∉ asyncHandlerActions requestHandler req := by
  unfold asyncHandlerActions
  rw [hrej]
  exact ⟨rfl, by intro code msg h; simp at h⟩

/-- Witness for C9: a handler that always rejects with a 500 error. -/
theorem asyncHandler_forwards_rejections_witness :
    asyncHandlerActions (fun _ : Nat => PromiseOutcome.rejected (α := Nat) ⟨500, "boom"⟩) 0 =
      [WrapperAction.callNext ⟨500, "boom"⟩] :=
  (asyncHandler_forwards_rejections
    (fun _ : Nat => PromiseOutcome.rejected (α := Nat) ⟨500, "boom"⟩) 0 ⟨500, "boom"⟩ rfl).1

/-- C3: a user registered with plaintext password `p` never has `p`
stored in the password field (the pre-save hook rehashes it), and
`isPasswordCorrect` accepts exactly `p`: it returns `true` on `p` and
`false` on every other string. -/
theorem registered_password_hashed_and_checkable (username email p q : String)
    (hq : q ≠ p) :
    (registeredUser username email p).password ≠ p ∧
    isPasswordCorrect p (registeredUser username email p) = true ∧
    isPasswordCorrect q (registeredUser username email p) = false := by
  have hpw : (registeredUser username email p).password = bcryptHash p := rfl
  refine ⟨?_, ?_, ?_⟩
  · rw [hpw]
    exact bcryptHash_ne_self p
  · rw [isPasswordCorrect, hpw, bcryptCompare]
    simp
  · rw [isPasswordCorrect, hpw, bcryptCompare]
    simp only [beq_eq_false_iff_ne, ne_eq]
    intro h
    exact hq (bcryptHash_inj h.symm)

/-- Witness for C3: the spec scenario, password `"secret123"`, wrong
guess `"wrong"`. -/
theorem registered_password_hashed_and_checkable_witness :
    (registeredUser "alice" "alice@mail.com" "secret123").password ≠ "secret123" ∧
    isPasswordCorrect "secret123" (registeredUser "alice" "alice@mail.com" "secret123") = true ∧
    isPasswordCorrect "wrong" (registeredUser "alice" "alice@mail.com" "secret123") = false :=
  registered_password_hashed_and_checkable "alice" "alice@mail.com" "secret123" "wrong"
    (by decide)

/-- C8: the pre-save hook rehashes the password exactly when the
password path is modified: a modified password is stored as its hash
(and hence actually changes), while a save that does not touch the
password leaves the stored value unchanged; the other fields are
untouched either way. -/
theorem presave_rehashes_iff_password_modified (u : UserDoc) :
    (u.passwordModified = true →
      (userPreSave u).password = bcryptHash u.password ∧
      (userPreSave u).password ≠ u.password) ∧
    (u.passwordModified = false →
      (userPreSave u).password = u.password) ∧
    (userPreSave u).username = u.username ∧
    (userPreSave u).email = u.email := by
  refine ⟨fun hm => ?_, fun hm => ?_, ?_, ?_⟩
  · rw [userPreSave, if_pos hm]
    exact ⟨rfl, bcryptHash_ne_self u.password⟩
  · rw [userPreSave, if_neg (by simp [hm])]
  · rw [userPreSave]
    by_cases hm : u.passwordModified = true
    · rw [if_pos hm]
    · rw [if_neg hm]
  · rw [userPreSave]
    by_cases hm : u.passwordModified = true
    · rw [if_pos hm]
    · rw [if_neg hm]

/-- Witness for C8: a modified-password save rehashes, an untouched
save keeps the stored hash. -/
theorem presave_rehashes_iff_password_modified_witness :
    (userPreSave ⟨"u", "e", "pw", true⟩).password = bcryptHash "pw" ∧
    (userPreSave ⟨"u", "e", "$2b$10$pw", false⟩).password = "$2b$10$pw" :=
  ⟨((presave_rehashes_iff_password_modified ⟨"u", "e", "pw", true⟩).1 rfl).1,
   (presave_rehashes_iff_password_modified ⟨"u", "e", "$2b$10$pw", false⟩).2.1 rfl⟩

/-- C7: applying `togglePublishStatus` twice to a stored video returns
its `isPublished` flag (indeed the whole document) to its original
value, and the stored document after the second call is that result. -/
theorem togglePublish_twice_involution (vid : Nat) (st : DB) (v : Video)
    (hfind : videoFindById vid st = some v) :
    ∃ st1 v1 st2 v2,
      togglePublishStatus (some vid) st = .ok (st1, v1) ∧
      v1.isPublished = !v.isPublished ∧
      togglePublishStatus (some vid) st1 = .ok (st2, v2) ∧
      v2.isPublished = v.isPublished ∧
      v2 = v ∧
      videoFindById vid st2 = some v2 := by
  have hvid : v.id = vid := by
    have := List.find?_some hfind
    simpa using this
  have hu1 : ({ v with isPublished := !v.isPublished } : Video).id = vid := hvid
  have hfind1 : videoFindById vid (videoSave vid { v with isPublished := !v.isPublished } st) =
      some { v with isPublished := !v.isPublished } :=
    find?_videoSave_map vid _ st.videos hu1 v hfind
  have hu2 : ({ v with isPublished := !(!v.isPublished) } : Video).id = vid := hvid
  refine ⟨videoSave vid { v with isPublished := !v.isPublished } st,
          { v with isPublished := !v.isPublished },
          videoSave vid { v with isPublished := !(!v.isPublished) }
            (videoSave vid { v with isPublished := !v.isPublished } st),
          { v with isPublished := !(!v.isPublished) },
          ?_, rfl, ?_, by simp, by cases v; simp, ?_⟩
  · simp only [togglePublishStatus, hfind]
  · simp only [togglePublishStatus, hfind1]
  · exact find?_videoSave_map vid _ _ hu2 _ hfind1

/-- Witness for C7: the concrete stored video, published, toggled
twice. -/
theorem togglePublish_twice_involution_witness :
    ∃ st1 v1 st2 v2,
      togglePublishStatus (some 1) sampleDB = .ok (st1, v1) ∧
      v1.isPublished = !sampleVideo.isPublished ∧
      togglePublishStatus (some 1) st1 = .ok (st2, v2) ∧
      v2.isPublished = sampleVideo.isPublished ∧
      v2 = sampleVideo ∧
      videoFindById 1 st2 = some v2 :=
  togglePublish_twice_involution 1 sampleDB sampleVideo rfl

/-- C1: `getVideo` deletes the existing view row for the
(video, owner, viewer) triple before inserting a fresh one, so fetching
the same video twice with the same viewer leaves exactly one view row
for that (video, viewer) pair, carrying the second fetch's timestamp.
The hypotheses are the system invariants: the video exists with owner
`o`, every existing pair row was created by `getVideo` and hence carries
that owner, and there is at most one such row. -/
theorem getVideo_twice_one_view_row (vid viewer o t1 t2 : Nat) (st : DB) (v : Video)
    (hfind : videoFindById vid st = some v)
    (hv : v.publisher = o)
    (hpub : ∀ r ∈ st.views, (r.video == vid && r.viewer == viewer) = true → r.owner = o)
    (hcount : (st.views.filter
      (fun r => r.video == vid && r.viewer == viewer)).length ≤ 1) :
    ∃ st1 st2 : DB,
      getVideo (some vid) viewer t1 st = .ok (st1, v) ∧
      getVideo (some vid) viewer t2 st1 = .ok (st2, v) ∧
      st2.views.filter (fun r => r.video == vid && r.viewer == viewer) =
        [(⟨vid, o, viewer, t2⟩ : View)] := by
  subst hv
  refine ⟨viewCreate vid v.publisher viewer t1
            (viewFindOneAndDelete vid v.publisher viewer st),
          viewCreate vid v.publisher viewer t2
            (viewFindOneAndDelete vid v.publisher viewer
              (viewCreate vid v.publisher viewer t1
                (viewFindOneAndDelete vid v.publisher viewer st))),
          ?_, ?_, ?_⟩
  · simp only [getVideo, hfind]
  · have hfind1 : videoFindById vid
        (viewCreate vid v.publisher viewer t1
          (viewFindOneAndDelete vid v.publisher viewer st)) = some v := hfind
    simp only [getVideo, hfind1]
  · have hone : ((viewCreate vid v.publisher viewer t1
        (viewFindOneAndDelete vid v.publisher viewer st)).views.filter
          (fun r => r.video == vid && r.viewer == viewer)) =
        [(⟨vid, v.publisher, viewer, t1⟩ : View)] :=
      viewStep_filter_pair vid v.publisher viewer t1 st.views hpub hcount
    have hpub1 : ∀ r ∈ (viewCreate vid v.publisher viewer t1
        (viewFindOneAndDelete vid v.publisher viewer st)).views,
        (r.video == vid && r.viewer == viewer) = true → r.owner = v.publisher := by
      intro r hr hp
      rcases List.mem_append.mp hr with hl | hl
      · exact hpub r (List.mem_of_mem_eraseP hl) hp
      · rcases List.mem_singleton.mp hl with rfl
        rfl
    exact viewStep_filter_pair vid v.publisher viewer t2 _ hpub1 (by rw [hone]; simp)

/-- Witness for C1: the sample database, whose single existing view row
for video 1 and viewer 3 is superseded across two fetches at times 200
and 300. -/
theorem getVideo_twice_one_view_row_witness :
    ∃ st1 st2 : DB,
      getVideo (some 1) 3 200 sampleDB = .ok (st1, sampleVideo) ∧
      getVideo (some 1) 3 300 st1 = .ok (st2, sampleVideo) ∧
      st2.views.filter (fun r => r.video == 1 && r.viewer == 3) =
        [(⟨1, 9, 3, 300⟩ : View)] :=
  getVideo_twice_one_view_row 1 3 9 200 300 sampleDB sampleVideo rfl rfl
    (by decide) (by decide)

/-- C2: for a stored video whose media deletions succeed, `deleteVideo`
removes both media assets from object storage, deletes the video row,
and deletes all view rows referencing that video id, so a subsequent
view-row query for that id returns none. Database ids are unique, hence
the at-most-one hypothesis on the video row. -/
theorem deleteVideo_removes_assets_row_and_views (cloud : Cloud) (vid : Nat)
    (st : DB) (v : Video)
    (hfind : videoFindById vid st = some v)
    (hunique : (st.videos.filter (fun w => w.id == vid)).length ≤ 1)
    (hdel1 : cloud.deleteOk v.videoFile.publicId = true)
    (hdel2 : cloud.deleteOk v.thumbnail.publicId = true) :
    ∃ st2 : DB,
      deleteVideo cloud (some vid) st =
        .ok (st2, ⟨200, (), "Video deleted successfully"⟩) ∧
      st2.views.filter (fun r => r.video == vid) = [] ∧
      st2.videos.find? (fun w => w.id == vid) = none ∧
      v.videoFile.publicId ∉ st2.storage ∧
      v.thumbnail.publicId ∉ st2.storage := by
  have hvid : v.id = vid := by simpa using List.find?_some hfind
  refine ⟨⟨st.videos.eraseP (fun w => w.id == vid),
           st.views.filter (fun r => !(r.video == v.id)),
           (st.storage.filter (fun s => s ≠ v.videoFile.publicId)).filter
             (fun s => s ≠ v.thumbnail.publicId)⟩,
          ?_, ?_, ?_, ?_, ?_⟩
  · simp only [deleteVideo, hfind, deleteFromCloudinary, hdel1, hdel2, if_true,
      videoFindByIdAndDelete, viewDeleteMany]
    rw [show List.find? (fun w : Video => w.id == vid) st.videos = some v from hfind]
  · apply List.filter_eq_nil_iff.mpr
    intro r hr
    have hmem := List.mem_filter.mp hr
    rw [hvid] at hmem
    simp only [Bool.not_eq_true'] at hmem
    simp [hmem.2]
  · apply List.find?_eq_none.mpr
    intro w hw
    have hnil := filter_eraseP_eq_nil (fun w => w.id == vid) st.videos hunique
    have := List.filter_eq_nil_iff.mp hnil w hw
    simpa using this
  · intro hmem
    have h1 := (List.mem_filter.mp hmem).1
    have h2 := (List.mem_filter.mp h1).2
    simp at h2
  · intro hmem
    have h2 := (List.mem_filter.mp hmem).2
    simp at h2

/-- Witness for C2: deleting the sample video with an all-succeeding
storage oracle. -/
theorem deleteVideo_removes_assets_row_and_views_witness :
    ∃ st2 : DB,
      deleteVideo cloudAllOk (some 1) sampleDB =
        .ok (st2, ⟨200, (), "Video deleted successfully"⟩) ∧
      st2.views.filter (fun r => r.video == 1) = [] ∧
      st2.videos.find? (fun w => w.id == 1) = none ∧
      sampleVideo.videoFile.publicId ∉ st2.storage ∧
      sampleVideo.thumbnail.publicId ∉ st2.storage :=
  deleteVideo_removes_assets_row_and_views cloudAllOk 1 sampleDB sampleVideo
    rfl (by decide) rfl rfl

/-- Counterexample to C5 as stated: in `deleteVideo` the results of the
two `deleteFromCloudinary` calls are never checked (`asyncHandler.js`
lines 601-602). With an oracle on which both storage deletions fail, the
handler still terminates successfully — the failing object-storage
steps raise no error at all, and both assets remain in storage. -/
theorem deleteVideo_ignores_storage_failure :
    cloudAllFail.deleteOk sampleVideo.videoFile.publicId = false ∧
    cloudAllFail.deleteOk sampleVideo.thumbnail.publicId = false ∧
    deleteVideo cloudAllFail (some 1) sampleDB =
      .ok (⟨[], [], ["pidV", "pidT"]⟩,
           ⟨200, (), "Video deleted successfully"⟩) := by
  refine ⟨rfl, rfl, ?_⟩
  rfl

/-- C5 amended: in all six §4.3 mutation handlers — `changeVideoFile`,
`changeThumbnail`, `changeTitle`, `changeDescription`,
`togglePublishStatus`, `deleteVideo` — every reachable failing step
(missing id/value, fetch miss, object-storage delete or upload failure,
update finding no document) raises its distinct server/client error
with a descriptive message, with one exception forced by the
counterexample: `deleteVideo`'s two object-storage deletions are
unchecked, so a storage failure there raises no error and the handler
completes. The completion conjuncts show the checks past those points
(`changeVideoFile`/`changeThumbnail`'s update check, `deleteVideo`'s
row-delete check) cannot fire in a sequential run once the fetch
succeeded, so no other failing step exists on those paths. -/
theorem mutation_handlers_error_steps :
    ((∀ cloud path st, changeVideoFile cloud none path st =
        .error ⟨400, "Video ID is required"⟩) ∧
     (∀ cloud vid st, changeVideoFile cloud (some vid) none st =
        .error ⟨400, "Video file is missing"⟩) ∧
     (∀ cloud vid path st, videoFindById vid st = none →
        changeVideoFile cloud (some vid) (some path) st =
          .error ⟨500, "Something went wrong while fetching the old video"⟩) ∧
     (∀ cloud vid path st v, videoFindById vid st = some v →
        cloud.deleteOk v.videoFile.publicId = false →
        changeVideoFile cloud (some vid) (some path) st =
          .error ⟨500, "Something went wrong while deleting the old video file from cloudinary"⟩) ∧
     (∀ cloud vid path st v, videoFindById vid st = some v →
        cloud.deleteOk v.videoFile.publicId = true →
        cloud.upload path = none →
        changeVideoFile cloud (some vid) (some path) st =
          .error ⟨500, "Something went wrong while uploading the new video file in cloudinary"⟩) ∧
     (∀ cloud vid path st v u, videoFindById vid st = some v →
        cloud.deleteOk v.videoFile.publicId = true →
        cloud.upload path = some u →
        ∃ result, changeVideoFile cloud (some vid) (some path) st = .ok result)) ∧
    ((∀ cloud path st, changeThumbnail cloud none path st =
        .error ⟨400, "Video ID is required"⟩) ∧
     (∀ cloud vid st, changeThumbnail cloud (some vid) none st =
        .error ⟨400, "Thumbnail is missing"⟩) ∧
     (∀ cloud vid path st, videoFindById vid st = none →
        changeThumbnail cloud (some vid) (some path) st =
          .error ⟨500, "Something went wrong while fetching the old video"⟩) ∧
     (∀ cloud vid path st v, videoFindById vid st = some v →
        cloud.deleteOk v.thumbnail.publicId = false →
        changeThumbnail cloud (some vid) (some path) st =
          .error ⟨500, "Something went wrong while deleting the old thumbnail from cloudinary"⟩) ∧
     (∀ cloud vid path st v, videoFindById vid st = some v →
        cloud.deleteOk v.thumbnail.publicId = true →
        cloud.upload path = none →
        changeThumbnail cloud (some vid) (some path) st =
          .error ⟨500, "Something went wrong while uploading the new thumbnail in cloudinary"⟩) ∧
     (∀ cloud vid path st v u, videoFindById vid st = some v →
        cloud.deleteOk v.thumbnail.publicId = true →
        cloud.upload path = some u →
        ∃ result, changeThumbnail cloud (some vid) (some path) st = .ok result)) ∧
    ((∀ title st, changeTitle none title st =
        .error ⟨400, "Video ID is required"⟩) ∧
     (∀ vid st, changeTitle (some vid) none st =
        .error ⟨400, "Title is missing"⟩) ∧
     (∀ vid t st, videoFindById vid st = none →
        changeTitle (some vid) (some t) st =
          .error ⟨500, "Something went wrong while updating the video title"⟩)) ∧
    ((∀ description st, changeDescription none description st =
        .error ⟨400, "Video ID is required"⟩) ∧
     (∀ vid st, changeDescription (some vid) none st =
        .error ⟨400, "description is missing"⟩) ∧
     (∀ vid d st, videoFindById vid st = none →
        changeDescription (some vid) (some d) st =
          .error ⟨500, "Something went wrong while updating the video description"⟩)) ∧
    ((∀ st, togglePublishStatus none st =
        .error ⟨400, "Video ID is required"⟩) ∧
     (∀ vid st, videoFindById vid st = none →
        togglePublishStatus (some vid) st =
          .error ⟨500, "Something went wrong while fetching the video"⟩)) ∧
    ((∀ cloud st, deleteVideo cloud none st =
        .error ⟨400, "Video ID is required"⟩) ∧
     (∀ cloud vid st, videoFindById vid st = none →
        deleteVideo cloud (some vid) st =
          .error ⟨500, "Something went wrong while fetching the video"⟩) ∧
     (∀ cloud vid st v, videoFindById vid st = some v →
        ∃ result, deleteVideo cloud (some vid) st = .ok result)) := by
  refine ⟨⟨fun cloud path st => rfl, fun cloud vid st => rfl,
           fun cloud vid path st hf => ?_,
           fun cloud vid path st v hf hd => ?_,
           fun cloud vid path st v hf hd hu => ?_,
           fun cloud vid path st v u hf hd hu => ?_⟩,
          ⟨fun cloud path st => rfl, fun cloud vid st => rfl,
           fun cloud vid path st hf => ?_,
           fun cloud vid path st v hf hd => ?_,
           fun cloud vid path st v hf hd hu => ?_,
           fun cloud vid path st v u hf hd hu => ?_⟩,
          ⟨fun title st => rfl, fun vid st => rfl,
           fun vid t st hf => ?_⟩,
          ⟨fun description st => rfl, fun vid st => rfl,
           fun vid d st hf => ?_⟩,
          ⟨fun st => rfl, fun vid st hf => ?_⟩,
          ⟨fun cloud st => rfl, fun cloud vid st hf => ?_,
           fun cloud vid st v hf => ?_⟩⟩
  · simp only [changeVideoFile, hf]
  · simp [changeVideoFile, hf, deleteFromCloudinary, hd]
  · simp only [changeVideoFile, hf, deleteFromCloudinary, hd, if_true, hu]
  · cases hres : changeVideoFile cloud (some vid) (some path) st with
    | ok result => exact ⟨result, rfl⟩
    | error e =>
      exfalso
      have hf' : List.find? (fun w : Video => w.id == vid) st.videos = some v := hf
      simp only [changeVideoFile, hf, deleteFromCloudinary, hd, if_true, hu,
        videoFindByIdAndUpdate, hf'] at hres
      cases hres
  · simp only [changeThumbnail, hf]
  · simp [changeThumbnail, hf, deleteFromCloudinary, hd]
  · simp only [changeThumbnail, hf, deleteFromCloudinary, hd, if_true, hu]
  · cases hres : changeThumbnail cloud (some vid) (some path) st with
    | ok result => exact ⟨result, rfl⟩
    | error e =>
      exfalso
      have hf' : List.find? (fun w : Video => w.id == vid) st.videos = some v := hf
      simp only [changeThumbnail, hf, deleteFromCloudinary, hd, if_true, hu,
        videoFindByIdAndUpdate, hf'] at hres
      cases hres
  · have hf' : List.find? (fun w : Video => w.id == vid) st.videos = none := hf
    simp only [changeTitle, videoFindByIdAndUpdate, hf']
  · have hf' : List.find? (fun w : Video => w.id == vid) st.videos = none := hf
    simp only [changeDescription, videoFindByIdAndUpdate, hf']
  · simp only [togglePublishStatus, hf]
  · simp only [deleteVideo, hf]
  · have hfind2 : List.find? (fun w : Video => w.id == vid)
        ((deleteFromCloudinary cloud v.thumbnail.publicId
          (deleteFromCloudinary cloud v.videoFile.publicId st).2).2).videos = some v := by
      unfold deleteFromCloudinary
      by_cases h1 : cloud.deleteOk v.videoFile.publicId = true <;>
        by_cases h2 : cloud.deleteOk v.thumbnail.publicId = true <;>
          simp [h1, h2] <;> exact hf
    cases hres : deleteVideo cloud (some vid) st with
    | ok result => exact ⟨result, rfl⟩
    | error e =>
      exfalso
      simp only [deleteVideo, hf, videoFindByIdAndDelete, viewDeleteMany] at hres
      rw [hfind2] at hres
      simp at hres

/-- Witness for C5's amended theorem: a fetch miss in `changeVideoFile`
on the empty database raises the fetch error. -/
theorem mutation_handlers_error_steps_witness :
    changeVideoFile cloudAllFail (some 1) (some "p") ⟨[], [], []⟩ =
      .error ⟨500, "Something went wrong while fetching the old video"⟩ :=
  mutation_handlers_error_steps.1.2.2.1 cloudAllFail 1 "p" ⟨[], [], []⟩ rfl

end VideoApp
